import Mathlib

set_option maxHeartbeats 1000000

namespace Avicenna

/-!
Shallow embedding of the Avicenna fitness tracker's rate-limiting subsystem
(`tracker/rate_limit.py`, `tracker/models.py`) and of the dashboard
aggregation logic (`tracker/views.py`).

Dates are represented as days since 1970-01-01 (`Nat`), timestamps as
seconds since 1970-01-01 (`Nat`); calendar conversion uses the standard
Gregorian civil-from-days / days-from-civil algorithms, mirroring the
calendar semantics of Python `date` / the database date functions.
-/

/-- A Gregorian calendar date. -/
structure Date where
  year : Nat
  month : Nat
  day : Nat
deriving DecidableEq

/-- Convert a day number (days since 1970-01-01) to a civil date. -/
def civilFromDays (z0 : Nat) : Date :=
  let z := z0 + 719468
  let era := z / 146097
  let doe := z % 146097
  let yoe := (doe - doe / 1460 + doe / 36524 - doe / 146096) / 365
  let y := yoe + era * 400
  let doy := doe - (365 * yoe + yoe / 4 - yoe / 100)
  let mp := (5 * doy + 2) / 153
  let d := doy - (153 * mp + 2) / 5 + 1
  let m := if mp < 10 then mp + 3 else mp - 9
  { year := if m ≤ 2 then y + 1 else y, month := m, day := d }

/-- Convert a civil date to a day number (days since 1970-01-01). -/
def daysFromCivil (dt : Date) : Nat :=
  let y := if dt.month ≤ 2 then dt.year - 1 else dt.year
  let era := y / 400
  let yoe := y % 400
  let doy := (153 * (if 2 < dt.month then dt.month - 3 else dt.month + 9) + 2) / 5 + dt.day - 1
  let doe := yoe * 365 + yoe / 4 - yoe / 100 + doy
  era * 146097 + doe - 719468

/-- Whether a year is a Gregorian leap year. -/
def isLeap (y : Nat) : Bool := y % 4 = 0 && (y % 100 ≠ 0 || y % 400 = 0)

/-- Number of days in a given month of a given year. -/
def daysInMonth (y m : Nat) : Nat :=
  if m = 2 then (if isLeap y then 29 else 28)
  else if m = 4 || m = 6 || m = 9 || m = 11 then 30
  else 31

/-- The month/day/year assembly stage of `civilFromDays`. -/
def monthDayPart (y0 doy : Nat) : Date :=
  let mp := (5 * doy + 2) / 153
  let dd := doy - (153 * mp + 2) / 5 + 1
  let mm := if mp < 10 then mp + 3 else mp - 9
  { year := if mm ≤ 2 then y0 + 1 else y0, month := mm, day := dd }

/-! ## Rate limiting (`tracker/rate_limit.py`) -/

/-- A Django user as far as the rate limiter is concerned: an id and group
memberships (`user.groups`). -/
structure DjangoUser where
  id : Nat
  groups : List String
deriving DecidableEq

/-- `tracker/rate_limit.py` request type choices of `AIUsage.request_type`. -/
inductive RequestType
  | text
  | image
deriving DecidableEq

/-- A row of the `AIUsage` table (`tracker/models.py`): append-only AI usage log.
`timestamp` is seconds since 1970-01-01, server-assigned at insert. -/
structure AIUsageRow where
  user : Nat
  timestamp : Nat
  request_type : RequestType
  success : Bool
  error_message : String
  tokens_used : Nat
deriving DecidableEq

/-- The configured quota ceilings (`get_rate_limits`). -/
structure RateLimits where
  hourly : Nat
  daily : Nat
  monthly : Nat
deriving DecidableEq

/-- Calendar date of a timestamp. -/
def dateOfTimestamp (t : Nat) : Date := civilFromDays (t / 86400)

/-- `AIUsage.get_usage_count`: rows of `user` with `timestamp >= now - hours`. -/
def get_usage_count (db : List AIUsageRow) (user : Nat) (hours : Nat) (now : Nat) : Nat :=
  db.countP (fun e => decide (e.user = user ∧ now - hours * 3600 ≤ e.timestamp))

/-- `AIUsage.get_daily_count`: rows of `user` whose timestamp falls on today's date. -/
def get_daily_count (db : List AIUsageRow) (user : Nat) (now : Nat) : Nat :=
  db.countP (fun e => decide (e.user = user ∧ dateOfTimestamp e.timestamp = dateOfTimestamp now))

/-- `AIUsage.get_monthly_count`: rows of `user` whose timestamp falls in the current
calendar month (year and month both match). -/
def get_monthly_count (db : List AIUsageRow) (user : Nat) (now : Nat) : Nat :=
  db.countP (fun e => decide (e.user = user ∧
    (dateOfTimestamp e.timestamp).year = (dateOfTimestamp now).year ∧
    (dateOfTimestamp e.timestamp).month = (dateOfTimestamp now).month))

/-- `is_special_user`: membership in the group named "special". -/
def is_special_user (u : DjangoUser) : Bool := u.groups.contains "special"

/-- The three quota windows, standing in for the human-readable rejection
messages of `check_rate_limit` (each message names exactly one window). -/
inductive LimitWindow
  | hourly
  | daily
  | monthly
deriving DecidableEq

/-- The result of `check_rate_limit`: the `(allowed, error_message, remaining)`
tuple, with the message abstracted to the window it names and the `remaining`
dict flattened. `unlimited` models the presence of the `unlimited: True` key. -/
structure RateDecision where
  allowed : Bool
  reason : Option LimitWindow
  hourly_remaining : Nat
  daily_remaining : Nat
  monthly_remaining : Nat
  unlimited : Bool
deriving DecidableEq

/-- `check_rate_limit` (`tracker/rate_limit.py` lines 31-84). -/
def check_rate_limit (limits : RateLimits) (db : List AIUsageRow) (u : DjangoUser)
    (now : Nat) : RateDecision :=
  if is_special_user u then
    { allowed := true, reason := none,
      hourly_remaining := 999999, daily_remaining := 999999, monthly_remaining := 999999,
      unlimited := true }
  else
    let hourly_count := get_usage_count db u.id 1 now
    if limits.hourly ≤ hourly_count then
      { allowed := false, reason := some .hourly,
        hourly_remaining := 0,
        daily_remaining := limits.daily - get_daily_count db u.id now,
        monthly_remaining := limits.monthly - get_monthly_count db u.id now,
        unlimited := false }
    else
      let daily_count := get_daily_count db u.id now
      if limits.daily ≤ daily_count then
        { allowed := false, reason := some .daily,
          hourly_remaining := limits.hourly - hourly_count,
          daily_remaining := 0,
          monthly_remaining := limits.monthly - get_monthly_count db u.id now,
          unlimited := false }
      else
        let monthly_count := get_monthly_count db u.id now
        if limits.monthly ≤ monthly_count then
          { allowed := false, reason := some .monthly,
            hourly_remaining := limits.hourly - hourly_count,
            daily_remaining := limits.daily - daily_count,
            monthly_remaining := 0,
            unlimited := false }
        else
          { allowed := true, reason := none,
            hourly_remaining := limits.hourly - hourly_count,
            daily_remaining := limits.daily - daily_count,
            monthly_remaining := limits.monthly - monthly_count,
            unlimited := false }

/-- `log_ai_usage`: appends one `AIUsage` row with the current timestamp. -/
def log_ai_usage (db : List AIUsageRow) (u : DjangoUser) (request_type : RequestType)
    (success : Bool) (error_message : String) (tokens_used : Nat) (now : Nat) :
    List AIUsageRow :=
  db ++ [{ user := u.id, timestamp := now, request_type := request_type,
           success := success, error_message := error_message,
           tokens_used := tokens_used }]

/-! ## Dashboard aggregation (`tracker/views.py`, `dashboard`) -/

/-- A row of the `DietaryEntry` table; `date` is days since 1970-01-01. -/
structure DietaryEntry where
  user : Nat
  date : Nat
  item : String
  calories : Int
deriving DecidableEq

/-- A row of the `ExerciseEntry` table. -/
structure ExerciseEntry where
  user : Nat
  date : Nat
  activity : String
  duration_minutes : Int
deriving DecidableEq

/-- A row of the `WeightEntry` table; `weight_kg` models the two-decimal
`DecimalField` as a rational. -/
structure WeightEntry where
  user : Nat
  date : Nat
  weight_kg : Rat
deriving DecidableEq

/-- The three entry tables the dashboard reads. -/
structure Database where
  dietary : List DietaryEntry
  exercise : List ExerciseEntry
  weight : List WeightEntry
deriving DecidableEq

/-- `DietaryEntry.objects.filter(user=target_user)`. -/
def userDietary (db : Database) (u : Nat) : List DietaryEntry :=
  db.dietary.filter (fun e => decide (e.user = u))

/-- `ExerciseEntry.objects.filter(user=target_user)`. -/
def userExercise (db : Database) (u : Nat) : List ExerciseEntry :=
  db.exercise.filter (fun e => decide (e.user = u))

/-- `WeightEntry.objects.filter(user=target_user)`. -/
def userWeight (db : Database) (u : Nat) : List WeightEntry :=
  db.weight.filter (fun e => decide (e.user = u))

/-- The distinct dates of a list, ascending — the ordering a grouped
`.values('date')` query returns its groups in. -/
def sortedDistinctDates (dates : List Nat) : List Nat :=
  (List.insertionSort (· ≤ ·) dates).dedup

/-- `.values('date').annotate(c=Count('id'))`: one `(date, row count)` pair per
distinct date, ascending by date. -/
def groupCounts (dates : List Nat) : List (Nat × Nat) :=
  (sortedDistinctDates dates).map (fun d => (d, dates.count d))

/-- `.values('date').annotate(total=Sum(field)).order_by('date')`: one
`(date, sum of field)` pair per distinct date, ascending by date. -/
def groupSums (pairs : List (Nat × Int)) : List (Nat × Int) :=
  (sortedDistinctDates (pairs.map Prod.fst)).map
    (fun d => (d, ((pairs.filter (fun p => decide (p.1 = d))).map Prod.snd).sum))

/-- The `(chart_start, chart_end)` pair of `dashboard` (views.py lines 97-108):
`latest_dates = [d for d in [latest_dietary, latest_exercise, latest_weight,
today] if d]`, `chart_end = max(latest_dates)` when non-empty else `today`,
`chart_start = chart_end - 29 days`. -/
def chartRange (db : Database) (u : Nat) (today : Nat) : Nat × Nat :=
  let latest_dietary := ((userDietary db u).map (fun e => e.date)).max?
  let latest_exercise := ((userExercise db u).map (fun e => e.date)).max?
  let latest_weight := ((userWeight db u).map (fun e => e.date)).max?
  let latest_dates := List.reduceOption [latest_dietary, latest_exercise, latest_weight, some today]
  match latest_dates.max? with
  | some m => (m - 29, m)
  | none => (today - 29, today)

/-- `cal_qs` of `dashboard`: daily calorie sums over the chart window
(views.py lines 117-124). -/
def calSeries (db : Database) (u : Nat) (s e : Nat) : List (Nat × Int) :=
  groupSums (((userDietary db u).filter
      (fun x => decide (s ≤ x.date ∧ x.date ≤ e))).map (fun x => (x.date, x.calories)))

/-- `ex_qs` of `dashboard`: daily exercise-minute sums over the chart window
(views.py lines 127-134). -/
def exSeries (db : Database) (u : Nat) (s e : Nat) : List (Nat × Int) :=
  groupSums (((userExercise db u).filter
      (fun x => decide (s ≤ x.date ∧ x.date ≤ e))).map (fun x => (x.date, x.duration_minutes)))

/-- `wt_qs` of `dashboard`: all weight entries in the window, ascending by date
(views.py lines 137-139). -/
def wtSeries (db : Database) (u : Nat) (s e : Nat) : List (Nat × Rat) :=
  (List.insertionSort (fun a b => a.date ≤ b.date)
      ((userWeight db u).filter (fun x => decide (s ≤ x.date ∧ x.date ≤ e)))).map
    (fun w => (w.date, w.weight_kg))

/-- `latest_weight_value` of `dashboard` (views.py lines 141-143):
`order_by('-date').first()`, mapped to its weight, `None` when no entry. -/
def latest_weight_value (db : Database) (u : Nat) : Option Rat :=
  ((List.insertionSort (fun a b => b.date ≤ a.date) (userWeight db u)).head?).map
    (fun w => w.weight_kg)

/-- `heatmap_start` (views.py line 147):
`(today - relativedelta(months=11)).replace(day=1)`. -/
def heatmapStart (today : Nat) : Nat :=
  let d := civilFromDays today
  let idx := d.year * 12 + (d.month - 1) - 11
  daysFromCivil ⟨idx / 12, idx % 12 + 1, 1⟩

/-- `heatmap_end` (views.py line 149):
`(today + relativedelta(months=1)).replace(day=1) - timedelta(days=1)`. -/
def heatmapEnd (today : Nat) : Nat :=
  let d := civilFromDays today
  let idx := d.year * 12 + (d.month - 1) + 1
  daysFromCivil ⟨idx / 12, idx % 12 + 1, 1⟩ - 1

/-- `activity_counts[key] += c` on a `defaultdict(int)`, modelled on an
insertion-ordered association list, as Python dicts are. -/
def bump (acc : List (Nat × Nat)) (k : Nat) (c : Nat) : List (Nat × Nat) :=
  match acc with
  | [] => [(k, c)]
  | (k', c') :: rest => if k' = k then (k', c' + c) :: rest else (k', c') :: bump rest k c

/-- One `for r in ...: activity_counts[str(r['date'])] += r['c']` loop. -/
def bumpAll (acc : List (Nat × Nat)) (g : List (Nat × Nat)) : List (Nat × Nat) :=
  g.foldl (fun a p => bump a p.1 p.2) acc

/-- `heatmap_data` of `dashboard` (views.py lines 151-162): per-date activity
counts accumulated from the dietary, exercise then weight grouped queries over
the heatmap window, emitted in dict insertion order. -/
def heatmapData (db : Database) (u : Nat) (today : Nat) : List (Nat × Nat) :=
  let s := heatmapStart today
  let e := heatmapEnd today
  let dG := groupCounts (((userDietary db u).filter
      (fun x => decide (s ≤ x.date ∧ x.date ≤ e))).map (fun x => x.date))
  let eG := groupCounts (((userExercise db u).filter
      (fun x => decide (s ≤ x.date ∧ x.date ≤ e))).map (fun x => x.date))
  let wG := groupCounts (((userWeight db u).filter
      (fun x => decide (s ≤ x.date ∧ x.date ≤ e))).map (fun x => x.date))
  bumpAll (bumpAll (bumpAll [] dG) eG) wG

/-- Total count stored in an association list under key `x` (0 when absent). -/
def keyTotal (l : List (Nat × Nat)) (x : Nat) : Nat :=
  ((l.filter (fun p => decide (p.1 = x))).map Prod.snd).sum

/-- Number of `DietaryEntry` rows owned by `u` dated `x`. -/
def dietaryCountOn (db : Database) (u : Nat) (x : Nat) : Nat :=
  db.dietary.countP (fun en => decide (en.user = u ∧ en.date = x))

/-- Number of `ExerciseEntry` rows owned by `u` dated `x`. -/
def exerciseCountOn (db : Database) (u : Nat) (x : Nat) : Nat :=
  db.exercise.countP (fun en => decide (en.user = u ∧ en.date = x))

/-- Number of `WeightEntry` rows owned by `u` dated `x`. -/
def weightCountOn (db : Database) (u : Nat) (x : Nat) : Nat :=
  db.weight.countP (fun en => decide (en.user = u ∧ en.date = x))

/-- Sum of `calories` over the `DietaryEntry` rows owned by `u` dated `x`. -/
def caloriesOn (db : Database) (u : Nat) (x : Nat) : Int :=
  ((db.dietary.filter (fun en => decide (en.user = u ∧ en.date = x))).map
    (fun en => en.calories)).sum

/-- The distinct dietary dates feeding the heatmap (the dietary grouped query's
key column). -/
def heatmapDietaryDates (db : Database) (u : Nat) (today : Nat) : List Nat :=
  ((userDietary db u).filter
    (fun x => decide (heatmapStart today ≤ x.date ∧ x.date ≤ heatmapEnd today))).map
      (fun x => x.date)

/-- The distinct exercise dates feeding the heatmap. -/
def heatmapExerciseDates (db : Database) (u : Nat) (today : Nat) : List Nat :=
  ((userExercise db u).filter
    (fun x => decide (heatmapStart today ≤ x.date ∧ x.date ≤ heatmapEnd today))).map
      (fun x => x.date)

/-- The distinct weight dates feeding the heatmap. -/
def heatmapWeightDates (db : Database) (u : Nat) (today : Nat) : List Nat :=
  ((userWeight db u).filter
    (fun x => decide (heatmapStart today ≤ x.date ∧ x.date ≤ heatmapEnd today))).map
      (fun x => x.date)

/-! ## Concrete fixtures used by witnesses and counterexamples -/

/-- A user with one dietary entry on 2026-10-10 and one earlier exercise entry
on 2026-10-03. -/
def exOrderDb : Database :=
  ⟨[⟨1, daysFromCivil ⟨2026, 10, 10⟩, "", 100⟩],
   [⟨1, daysFromCivil ⟨2026, 10, 3⟩, "run", 20⟩], []⟩

/-- A user in the "special" group. -/
def specialUser : DjangoUser := ⟨1, ["special"]⟩

/-- A user in no groups. -/
def normalUser : DjangoUser := ⟨2, []⟩

/-- The default quota ceilings of `rate_limit.py`. -/
def defaultLimits : RateLimits := ⟨10, 30, 200⟩

/-- A successful text-analysis usage row. -/
def usageRow (uid t : Nat) : AIUsageRow := ⟨uid, t, .text, true, "", 0⟩

/-- Ten usage rows for `normalUser`, all within the hour before timestamp
1800000000. -/
def hourlyBurst : List AIUsageRow := (List.range 10).map (fun i => usageRow 2 (1800000000 - 60 * i))

/-! ## Theorems -/

/-! ### Calendar roundtrip: `civilFromDays` is a left inverse of `daysFromCivil` -/

lemma yoe_extract (c a b doy X : Nat) (hc : c ≤ 3) (ha : a ≤ 24) (hb : b ≤ 3)
    (hdoy : doy ≤ 364 ∨ (doy = 365 ∧ b = 3 ∧ (a = 24 → c = 3)))
    (hX : 36524*c + 1461*a + 365*b + doy = X) :
    (X - X/1460 + X/36524 - X/146096)/365 = 100*c + 4*a + b := by
  rcases hdoy with h | ⟨h365, hb3, hac⟩
  · have h1 : X/1460 = 25*c + a + (24*c + a + 365*b + doy)/1460 := by omega
    have h2 : X/36524 = c := by omega
    have h3 : X/146096 = 0 := by omega
    rw [h1, h2, h3]
    omega
  · subst h365 hb3
    by_cases ha24 : a = 24
    · have hc3 := hac ha24
      subst ha24 hc3
      have hXv : X = 146096 := by omega
      subst hXv
      norm_num
    · have h1 : X/1460 = 25*c + a + 1 := by omega
      have h2 : X/36524 = c := by omega
      have h3 : X/146096 = 0 := by omega
      rw [h1, h2, h3]
      omega

lemma civilFromDays_eq_monthDayPart (era c a b doy X : Nat) (hc : c ≤ 3) (ha : a ≤ 24)
    (hb : b ≤ 3) (hdoy : doy ≤ 364 ∨ (doy = 365 ∧ b = 3 ∧ (a = 24 → c = 3)))
    (hX : X + 719468 = era*146097 + (36524*c + 1461*a + 365*b + doy)) :
    civilFromDays X = monthDayPart (era*400 + (100*c + 4*a + b)) doy := by
  simp only [civilFromDays]
  rw [hX]
  have hera : (era*146097 + (36524*c + 1461*a + 365*b + doy))/146097 = era := by
    have hbound : 36524*c + 1461*a + 365*b + doy ≤ 146096 := by omega
    omega
  have hdoe : (era*146097 + (36524*c + 1461*a + 365*b + doy))%146097 =
      36524*c + 1461*a + 365*b + doy := by
    have hbound : 36524*c + 1461*a + 365*b + doy ≤ 146096 := by omega
    omega
  rw [hera, hdoe]
  rw [yoe_extract c a b doy _ hc ha hb hdoy rfl]
  have hsub : 36524*c + 1461*a + 365*b + doy -
      (365*(100*c + 4*a + b) + (100*c + 4*a + b)/4 - (100*c + 4*a + b)/100) = doy := by
    have h4 : (100*c + 4*a + b)/4 = 25*c + a := by omega
    have h100 : (100*c + 4*a + b)/100 = c := by omega
    omega
  rw [hsub]
  have hy0 : 100*c + 4*a + b + era*400 = era*400 + (100*c + 4*a + b) := by omega
  rw [hy0]
  rfl

lemma roundtrip_high (y m d : Nat) (hy : 1970 ≤ y) (hm3 : 3 ≤ m) (hm12 : m ≤ 12)
    (hd1 : 1 ≤ d) (hval : (153*(m-3)+2)/5 + d - 1 < (153*(m-2)+2)/5) :
    civilFromDays (daysFromCivil ⟨y, m, d⟩) = ⟨y, m, d⟩ := by
  have hdoy364 : (153*(m-3)+2)/5 + d - 1 ≤ 364 := by omega
  have hX : daysFromCivil ⟨y, m, d⟩ + 719468 =
      (y/400)*146097 + (36524*(y%400/100) + 1461*(y%400%100/4) + 365*(y%400%100%4) +
        ((153*(m-3)+2)/5 + d - 1)) := by
    simp only [daysFromCivil]
    rw [if_neg (by omega : ¬ m ≤ 2), if_pos (by omega : 2 < m)]
    have h4 : y%400/4 = 25*(y%400/100) + y%400%100/4 := by omega
    omega
  rw [civilFromDays_eq_monthDayPart (y/400) (y%400/100) (y%400%100/4) (y%400%100%4)
    ((153*(m-3)+2)/5 + d - 1) _ (by omega) (by omega) (by omega) (Or.inl hdoy364) hX]
  simp only [monthDayPart]
  have hmp : (5*((153*(m-3)+2)/5 + d - 1) + 2)/153 = m - 3 := by omega
  rw [hmp]
  rw [if_pos (by omega : m - 3 < 10)]
  rw [if_neg (by omega : ¬ (m - 3 + 3) ≤ 2)]
  simp only [Date.mk.injEq]
  refine ⟨by omega, by omega, by omega⟩

lemma roundtrip_low (y m d : Nat) (hy : 1970 ≤ y) (hm1 : 1 ≤ m) (hm2 : m ≤ 2)
    (hd1 : 1 ≤ d)
    (hval : ((153*(m+9)+2)/5 + d - 1 ≤ 364 ∧ (153*(m+9)+2)/5 + d - 1 < (153*(m+10)+2)/5) ∨
      ((153*(m+9)+2)/5 + d - 1 = 365 ∧ m = 2 ∧ y % 4 = 0 ∧ (y % 100 ≠ 0 ∨ y % 400 = 0))) :
    civilFromDays (daysFromCivil ⟨y, m, d⟩) = ⟨y, m, d⟩ := by
  obtain ⟨Y, hY⟩ : ∃ Y, y - 1 = Y := ⟨_, rfl⟩
  obtain ⟨o, ho⟩ : ∃ o, (153*(m+9)+2)/5 = o := ⟨_, rfl⟩
  obtain ⟨D, hD⟩ : ∃ D, o + d - 1 = D := ⟨_, rfl⟩
  rw [ho, hD] at hval
  have hYy : Y + 1 = y := by omega
  have hDd : o + d = D + 1 := by omega
  have hX : daysFromCivil ⟨y, m, d⟩ + 719468 =
      (Y/400)*146097 + (36524*(Y%400/100) + 1461*(Y%400%100/4) +
        365*(Y%400%100%4) + D) := by
    simp only [daysFromCivil]
    rw [if_pos (by omega : m ≤ 2), if_neg (by omega : ¬ 2 < m), hY, ho, hD]
    obtain ⟨A, hA⟩ : ∃ A, Y%400*365 + Y%400/4 - Y%400/100 = A := ⟨_, rfl⟩
    rw [hA]
    have h4 : Y%400/4 = 25*(Y%400/100) + Y%400%100/4 := by omega
    omega
  have hdoy : D ≤ 364 ∨
      (D = 365 ∧ Y%400%100%4 = 3 ∧ (Y%400%100/4 = 24 → Y%400/100 = 3)) := by
    rcases hval with ⟨h, _⟩ | ⟨h365, hm2f, h4, h100⟩
    · exact Or.inl h
    · refine Or.inr ⟨h365, by omega, by omega⟩
  rw [civilFromDays_eq_monthDayPart (Y/400) (Y%400/100) (Y%400%100/4)
    (Y%400%100%4) D _ (by omega) (by omega) (by omega) hdoy hX]
  simp only [monthDayPart]
  have hmp : (5*D + 2)/153 = m + 9 := by
    obtain ⟨o2, ho2⟩ : ∃ t, (153*(m+10)+2)/5 = t := ⟨_, rfl⟩
    rw [ho2] at hval
    rcases hval with ⟨h, hlt⟩ | ⟨h365, hm2f, _, _⟩ <;> omega
  rw [hmp]
  rw [if_neg (by omega : ¬ m + 9 < 10)]
  rw [if_pos (by omega : m + 9 - 9 ≤ 2)]
  rw [ho]
  simp only [Date.mk.injEq]
  refine ⟨by omega, by omega, by omega⟩

lemma civilFromDays_daysFromCivil (y m d : Nat) (hy : 1970 ≤ y) (hm1 : 1 ≤ m)
    (hm2 : m ≤ 12) (hd1 : 1 ≤ d) (hd2 : d ≤ daysInMonth y m) :
    civilFromDays (daysFromCivil ⟨y, m, d⟩) = ⟨y, m, d⟩ := by
  by_cases hm : m ≤ 2
  · rcases Nat.lt_or_ge d 29 with hd | hd
    · exact roundtrip_low y m d hy hm1 hm hd1
        (Or.inl (by interval_cases m <;> constructor <;> omega))
    · have hm2' : m = 2 → d = 29 ∧ isLeap y = true := by
        intro h2
        subst h2
        simp only [daysInMonth, if_pos rfl] at hd2
        rcases Bool.eq_false_or_eq_true (isLeap y) with hl | hl
        · rw [hl] at hd2; norm_num at hd2; exact ⟨by omega, hl⟩
        · rw [hl] at hd2; norm_num at hd2; exact absurd hd2 (by omega)
      interval_cases m
      · exact roundtrip_low y 1 d hy (by omega) (by omega) hd1
          (Or.inl (by simp only [daysInMonth] at hd2; norm_num at hd2; constructor <;> omega))
      · obtain ⟨hd29, hleap⟩ := hm2' rfl
        simp only [isLeap, Bool.and_eq_true, Bool.or_eq_true, decide_eq_true_eq,
          Bool.not_eq_true', decide_eq_false_iff_not] at hleap
        exact roundtrip_low y 2 d hy (by omega) (by omega) hd1
          (Or.inr ⟨by omega, rfl, hleap.1, hleap.2⟩)
  · have h31 : d ≤ 31 := by
      interval_cases m <;> simp only [daysInMonth] at hd2 <;> norm_num at hd2 <;> omega
    refine roundtrip_high y m d hy (by omega) hm2 hd1 ?_
    interval_cases m <;> simp only [daysInMonth] at hd2 <;> norm_num at hd2 <;> omega


/-- C1: for a non-special user, `check_rate_limit` compares the hourly, daily
and monthly counts against their ceilings in that order; it rejects naming the
first window whose count has reached its limit, and allows exactly when all
three counts are strictly below their limits; in particular a ledger of exactly
`limit[W]` logged usages lying inside window `W` (with every earlier-checked
window still under its limit) is rejected with reason `W`. -/
theorem check_rate_limit_first_window_wins (limits : RateLimits) (db : List AIUsageRow)
    (u : DjangoUser) (now : Nat) (hns : is_special_user u = false) :
    ((check_rate_limit limits db u now).allowed = true ↔
      get_usage_count db u.id 1 now < limits.hourly ∧
      get_daily_count db u.id now < limits.daily ∧
      get_monthly_count db u.id now < limits.monthly) ∧
    (limits.hourly ≤ get_usage_count db u.id 1 now →
      (check_rate_limit limits db u now).allowed = false ∧
      (check_rate_limit limits db u now).reason = some LimitWindow.hourly) ∧
    (get_usage_count db u.id 1 now < limits.hourly →
      limits.daily ≤ get_daily_count db u.id now →
      (check_rate_limit limits db u now).allowed = false ∧
      (check_rate_limit limits db u now).reason = some LimitWindow.daily) ∧
    (get_usage_count db u.id 1 now < limits.hourly →
      get_daily_count db u.id now < limits.daily →
      limits.monthly ≤ get_monthly_count db u.id now →
      (check_rate_limit limits db u now).allowed = false ∧
      (check_rate_limit limits db u now).reason = some LimitWindow.monthly) ∧
    ((∀ e ∈ db, e.user = u.id ∧ now - 1 * 3600 ≤ e.timestamp) →
      db.length = limits.hourly →
      (check_rate_limit limits db u now).allowed = false ∧
      (check_rate_limit limits db u now).reason = some LimitWindow.hourly) ∧
    ((∀ e ∈ db, e.user = u.id ∧ dateOfTimestamp e.timestamp = dateOfTimestamp now) →
      db.length = limits.daily →
      get_usage_count db u.id 1 now < limits.hourly →
      (check_rate_limit limits db u now).allowed = false ∧
      (check_rate_limit limits db u now).reason = some LimitWindow.daily) ∧
    ((∀ e ∈ db, e.user = u.id ∧
        (dateOfTimestamp e.timestamp).year = (dateOfTimestamp now).year ∧
        (dateOfTimestamp e.timestamp).month = (dateOfTimestamp now).month) →
      db.length = limits.monthly →
      get_usage_count db u.id 1 now < limits.hourly →
      get_daily_count db u.id now < limits.daily →
      (check_rate_limit limits db u now).allowed = false ∧
      (check_rate_limit limits db u now).reason = some LimitWindow.monthly) := by
  have hrec_h : (∀ e ∈ db, e.user = u.id ∧ now - 1 * 3600 ≤ e.timestamp) →
      get_usage_count db u.id 1 now = db.length := by
    intro h
    exact List.countP_eq_length.mpr (fun a ha => by simpa using h a ha)
  have hrec_d : (∀ e ∈ db, e.user = u.id ∧ dateOfTimestamp e.timestamp = dateOfTimestamp now) →
      get_daily_count db u.id now = db.length := by
    intro h
    exact List.countP_eq_length.mpr (fun a ha => by simpa using h a ha)
  have hrec_m : (∀ e ∈ db, e.user = u.id ∧
        (dateOfTimestamp e.timestamp).year = (dateOfTimestamp now).year ∧
        (dateOfTimestamp e.timestamp).month = (dateOfTimestamp now).month) →
      get_monthly_count db u.id now = db.length := by
    intro h
    exact List.countP_eq_length.mpr (fun a ha => by simpa using h a ha)
  simp only [check_rate_limit, hns, Bool.false_eq_true, if_false]
  split_ifs with h1 h2 h3
  · exact ⟨by simp; omega,
      fun _ => ⟨rfl, rfl⟩,
      fun ha _ => absurd ha (by omega),
      fun ha _ _ => absurd ha (by omega),
      fun _ _ => ⟨rfl, rfl⟩,
      fun _ _ hc => absurd hc (by omega),
      fun _ _ hc _ => absurd hc (by omega)⟩
  · exact ⟨by simp; omega,
      fun ha => absurd ha h1,
      fun _ _ => ⟨rfl, rfl⟩,
      fun _ hb _ => absurd hb (by omega),
      fun ha _ => (h1 (by have := hrec_h ha; omega)).elim,
      fun _ _ _ => ⟨rfl, rfl⟩,
      fun _ _ _ hd => absurd hd (by omega)⟩
  · exact ⟨by simp; omega,
      fun ha => absurd ha h1,
      fun _ hb => absurd hb h2,
      fun _ _ _ => ⟨rfl, rfl⟩,
      fun ha _ => (h1 (by have := hrec_h ha; omega)).elim,
      fun ha _ _ => (h2 (by have := hrec_d ha; omega)).elim,
      fun _ _ _ _ => ⟨rfl, rfl⟩⟩
  · exact ⟨by simp; omega,
      fun ha => absurd ha h1,
      fun _ hb => absurd hb h2,
      fun _ _ hc => absurd hc h3,
      fun ha _ => (h1 (by have := hrec_h ha; omega)).elim,
      fun ha _ _ => (h2 (by have := hrec_d ha; omega)).elim,
      fun ha _ _ _ => (h3 (by have := hrec_m ha; omega)).elim⟩

/-- Witness for C1: with the default limits, ten usages inside the last hour
make the next check rejected with the hourly reason. -/
theorem check_rate_limit_first_window_wins_witness :
    is_special_user normalUser = false ∧
    (check_rate_limit defaultLimits hourlyBurst normalUser 1800000000).allowed = false ∧
    (check_rate_limit defaultLimits hourlyBurst normalUser 1800000000).reason =
      some LimitWindow.hourly :=
  ⟨by decide,
    (check_rate_limit_first_window_wins defaultLimits hourlyBurst normalUser 1800000000
      (by decide)).2.1 (by decide)⟩

/-- C2: for a non-special user, every branch of `check_rate_limit` reports
`remaining[w] = max(0, limit[w] - count[w])` for each of the three windows, so
an exceeded window reports 0 and even a rejection carries the true remaining
values of the other two windows. -/
theorem check_rate_limit_remaining_triple (limits : RateLimits) (db : List AIUsageRow)
    (u : DjangoUser) (now : Nat) (hns : is_special_user u = false) :
    (((check_rate_limit limits db u now).hourly_remaining : Int) =
      max ((limits.hourly : Int) - (get_usage_count db u.id 1 now : Int)) 0) ∧
    (((check_rate_limit limits db u now).daily_remaining : Int) =
      max ((limits.daily : Int) - (get_daily_count db u.id now : Int)) 0) ∧
    (((check_rate_limit limits db u now).monthly_remaining : Int) =
      max ((limits.monthly : Int) - (get_monthly_count db u.id now : Int)) 0) ∧
    (limits.hourly ≤ get_usage_count db u.id 1 now →
      (check_rate_limit limits db u now).hourly_remaining = 0) ∧
    (limits.daily ≤ get_daily_count db u.id now →
      (check_rate_limit limits db u now).daily_remaining = 0) ∧
    (limits.monthly ≤ get_monthly_count db u.id now →
      (check_rate_limit limits db u now).monthly_remaining = 0) := by
  simp only [check_rate_limit, hns, Bool.false_eq_true, if_false]
  split_ifs with h1 h2 h3 <;>
    refine ⟨by dsimp only; push_cast; omega, by dsimp only; push_cast; omega,
      by dsimp only; push_cast; omega, fun ha => by dsimp only; all_goals omega,
      fun ha => by dsimp only; all_goals omega, fun ha => by dsimp only; all_goals omega⟩

/-- Witness for C2: a rejected hourly check still reports the true daily and
monthly remaining counts. -/
theorem check_rate_limit_remaining_triple_witness :
    is_special_user normalUser = false ∧
    ((check_rate_limit defaultLimits hourlyBurst normalUser 1800000000).daily_remaining : Int) =
      max ((defaultLimits.daily : Int) -
        (get_daily_count hourlyBurst normalUser.id 1800000000 : Int)) 0 :=
  ⟨by decide,
    (check_rate_limit_remaining_triple defaultLimits hourlyBurst normalUser 1800000000
      (by decide)).2.1⟩

/-- C3: a user in the "special" group always gets an allowed decision with the
999999 sentinel remaining value for all three windows and the unlimited flag,
regardless of the ledger contents and of the configured limits. -/
theorem check_rate_limit_special_unlimited (limits : RateLimits) (db : List AIUsageRow)
    (u : DjangoUser) (now : Nat) (hs : is_special_user u = true) :
    check_rate_limit limits db u now =
      { allowed := true, reason := none, hourly_remaining := 999999,
        daily_remaining := 999999, monthly_remaining := 999999, unlimited := true } := by
  simp [check_rate_limit, hs]

/-- Witness for C3: a special user with ten usages in the last hour and all
ceilings configured to zero is still allowed with the sentinel values. -/
theorem check_rate_limit_special_unlimited_witness :
    is_special_user specialUser = true ∧
    check_rate_limit ⟨0, 0, 0⟩ ((List.range 10).map (fun i => usageRow 1 (1800000000 - 60 * i)))
        specialUser 1800000000 =
      { allowed := true, reason := none, hourly_remaining := 999999,
        daily_remaining := 999999, monthly_remaining := 999999, unlimited := true } :=
  ⟨by decide,
    check_rate_limit_special_unlimited ⟨0, 0, 0⟩
      ((List.range 10).map (fun i => usageRow 1 (1800000000 - 60 * i))) specialUser 1800000000
      (by decide)⟩

/-! ### Chart range (C4) and heatmap window (C5) -/

lemma foldl_max_spec (as : List Nat) (a : Nat) :
    (as.foldl max a = a ∨ as.foldl max a ∈ as) ∧ a ≤ as.foldl max a ∧
      ∀ x ∈ as, x ≤ as.foldl max a := by
  induction as generalizing a with
  | nil => exact ⟨Or.inl rfl, Nat.le_refl a, fun x hx => absurd hx (List.not_mem_nil x)⟩
  | cons b bs ih =>
    obtain ⟨hmem, hle, hall⟩ := ih (max a b)
    refine ⟨?_, ?_, ?_⟩
    · rcases hmem with h | h
      · rcases max_choice a b with hm | hm
        · exact Or.inl (by rw [List.foldl_cons, h, hm])
        · exact Or.inr (by rw [List.foldl_cons, h, hm]; exact List.mem_cons_self b bs)
      · exact Or.inr (List.mem_cons_of_mem b h)
    · exact Nat.le_trans (Nat.le_max_left a b) hle
    · intro x hx
      rcases List.mem_cons.mp hx with rfl | hx
      · exact Nat.le_trans (Nat.le_max_right a x) hle
      · exact hall x hx

lemma max?_spec {l : List Nat} {m : Nat} (h : l.max? = some m) :
    m ∈ l ∧ ∀ x ∈ l, x ≤ m := by
  cases l with
  | nil => simp [List.max?] at h
  | cons a as =>
    simp only [List.max?] at h
    obtain ⟨hmem, hle, hall⟩ := foldl_max_spec as a
    cases h
    constructor
    · rcases hmem with h | h
      · rw [h]; exact List.mem_cons_self a as
      · exact List.mem_cons_of_mem a h
    · intro x hx
      rcases List.mem_cons.mp hx with rfl | hx
      · exact hle
      · exact hall x hx

lemma mem_le_max? {l : List Nat} {x m : Nat} (hx : x ∈ l) (h : l.max? = some m) : x ≤ m :=
  (max?_spec h).2 x hx

lemma max?_of_mem {l : List Nat} {x : Nat} (hx : x ∈ l) : ∃ m, l.max? = some m := by
  cases l with
  | nil => exact absurd hx (List.not_mem_nil x)
  | cons a as => exact ⟨as.foldl max a, rfl⟩

/-- A user whose only record is a dietary entry dated day 100. -/
def chartFixtureDb : Database := ⟨[⟨1, 100, "", 500⟩], [], []⟩

/-- Counterexample for C4: for a user whose only record is dated day 100 and
with today = day 200, the code's chart range is `(171, 200)` — the range is 30
days for the plain dashboard too (not 7), and its end is wall-clock today, not
the most recent record date 100 as the claim asserts for users with records. -/
theorem chart_range_counterexample :
    chartRange chartFixtureDb 1 200 = (171, 200) ∧
    (chartRange chartFixtureDb 1 200).2 ≠ 100 ∧
    (chartRange chartFixtureDb 1 200).1 ≠ 100 - 6 ∧
    (chartRange chartFixtureDb 1 200).1 ≠ 100 - 29 := by decide

/-- C4 (amended): the chart range is `[chartEnd - 29, chartEnd]` (30 days, for
both dashboard variants) where `chartEnd` is the maximum of today and the
user's latest dietary, exercise and weight record dates — so it equals today
whenever all records lie in the past. -/
theorem chart_range_amended (db : Database) (u : Nat) (today : Nat) :
    (chartRange db u today).1 = (chartRange db u today).2 - 29 ∧
    today ≤ (chartRange db u today).2 ∧
    (∀ en ∈ userDietary db u, en.date ≤ (chartRange db u today).2) ∧
    (∀ en ∈ userExercise db u, en.date ≤ (chartRange db u today).2) ∧
    (∀ en ∈ userWeight db u, en.date ≤ (chartRange db u today).2) ∧
    ((chartRange db u today).2 = today ∨
      (∃ en ∈ userDietary db u, en.date = (chartRange db u today).2) ∨
      (∃ en ∈ userExercise db u, en.date = (chartRange db u today).2) ∨
      (∃ en ∈ userWeight db u, en.date = (chartRange db u today).2)) := by
  simp only [chartRange]
  have htoday : today ∈ List.reduceOption
      [((userDietary db u).map (fun e => e.date)).max?,
       ((userExercise db u).map (fun e => e.date)).max?,
       ((userWeight db u).map (fun e => e.date)).max?, some today] := by
    simp [List.reduceOption]
  obtain ⟨mx, hmx⟩ := max?_of_mem htoday
  rw [hmx]
  obtain ⟨hmem, hall⟩ := max?_spec hmx
  have hmem2 : ∀ z, z ∈ List.reduceOption
      [((userDietary db u).map (fun e => e.date)).max?,
       ((userExercise db u).map (fun e => e.date)).max?,
       ((userWeight db u).map (fun e => e.date)).max?, some today] ↔
      (((userDietary db u).map (fun e => e.date)).max? = some z ∨
       ((userExercise db u).map (fun e => e.date)).max? = some z ∨
       ((userWeight db u).map (fun e => e.date)).max? = some z ∨ z = today) := by
    intro z
    simp [List.reduceOption, eq_comm]
  refine ⟨rfl, hall today htoday, ?_, ?_, ?_, ?_⟩
  · intro en hen
    obtain ⟨md, hmd⟩ := max?_of_mem (List.mem_map_of_mem (fun e => e.date) hen)
    exact Nat.le_trans (mem_le_max? (List.mem_map_of_mem (fun e => e.date) hen) hmd)
      (hall md ((hmem2 md).mpr (Or.inl hmd)))
  · intro en hen
    obtain ⟨md, hmd⟩ := max?_of_mem (List.mem_map_of_mem (fun e => e.date) hen)
    exact Nat.le_trans (mem_le_max? (List.mem_map_of_mem (fun e => e.date) hen) hmd)
      (hall md ((hmem2 md).mpr (Or.inr (Or.inl hmd))))
  · intro en hen
    obtain ⟨md, hmd⟩ := max?_of_mem (List.mem_map_of_mem (fun e => e.date) hen)
    exact Nat.le_trans (mem_le_max? (List.mem_map_of_mem (fun e => e.date) hen) hmd)
      (hall md ((hmem2 md).mpr (Or.inr (Or.inr (Or.inl hmd)))))
  · rcases (hmem2 mx).mp hmem with h | h | h | h
    · obtain ⟨hm, _⟩ := max?_spec h
      obtain ⟨en, hen, hend⟩ := List.mem_map.mp hm
      exact Or.inr (Or.inl ⟨en, hen, hend⟩)
    · obtain ⟨hm, _⟩ := max?_spec h
      obtain ⟨en, hen, hend⟩ := List.mem_map.mp hm
      exact Or.inr (Or.inr (Or.inl ⟨en, hen, hend⟩))
    · obtain ⟨hm, _⟩ := max?_spec h
      obtain ⟨en, hen, hend⟩ := List.mem_map.mp hm
      exact Or.inr (Or.inr (Or.inr ⟨en, hen, hend⟩))
    · exact Or.inl h

/-- Counterexample for C5: at today = 2026-10-12 the single-user dashboard's
heatmap window starts at 2025-11-01 (11 months back) and ends at 2026-10-31
(0 months forward), not at the first day of the current month / the last day of
the month 5 months ahead as the claim asserts for the single-user variant. -/
theorem heatmap_window_counterexample :
    heatmapStart (daysFromCivil ⟨2026, 10, 12⟩) = daysFromCivil ⟨2025, 11, 1⟩ ∧
    heatmapEnd (daysFromCivil ⟨2026, 10, 12⟩) = daysFromCivil ⟨2026, 11, 1⟩ - 1 ∧
    daysFromCivil ⟨2025, 11, 1⟩ ≠ daysFromCivil ⟨2026, 10, 1⟩ ∧
    daysFromCivil ⟨2026, 11, 1⟩ - 1 ≠ daysFromCivil ⟨2027, 4, 1⟩ - 1 := by decide

/-- C5 (amended): for every valid calendar date "today", both dashboard
variants use the same heatmap window: it starts at the first day of the month
11 months before today's month and ends the day before the first day of the
month after today's month (the last day of the current month) — trailing
twelve months, `monthsBack = 11`, `monthsForward = 0`. -/
theorem heatmap_window_amended (y m d : Nat) (hy : 1970 ≤ y) (hm1 : 1 ≤ m) (hm2 : m ≤ 12)
    (hd1 : 1 ≤ d) (hd2 : d ≤ daysInMonth y m) :
    heatmapStart (daysFromCivil ⟨y, m, d⟩) =
      daysFromCivil ⟨(y * 12 + (m - 1) - 11) / 12, (y * 12 + (m - 1) - 11) % 12 + 1, 1⟩ ∧
    heatmapEnd (daysFromCivil ⟨y, m, d⟩) =
      daysFromCivil ⟨(y * 12 + (m - 1) + 1) / 12, (y * 12 + (m - 1) + 1) % 12 + 1, 1⟩ - 1 := by
  have hrt := civilFromDays_daysFromCivil y m d hy hm1 hm2 hd1 hd2
  exact ⟨by simp only [heatmapStart, hrt], by simp only [heatmapEnd, hrt]⟩

/-- Witness for C5 (amended) at today = 2026-10-12: the window is 2025-11-01 to
2026-10-31. -/
theorem heatmap_window_amended_witness :
    ((1970 ≤ 2026 ∧ 1 ≤ 10 ∧ 10 ≤ 12 ∧ 1 ≤ 12 ∧ 12 ≤ daysInMonth 2026 10) ∧
    heatmapStart (daysFromCivil ⟨2026, 10, 12⟩) =
      daysFromCivil ⟨(2026 * 12 + (10 - 1) - 11) / 12, (2026 * 12 + (10 - 1) - 11) % 12 + 1, 1⟩ ∧
    heatmapEnd (daysFromCivil ⟨2026, 10, 12⟩) =
      daysFromCivil ⟨(2026 * 12 + (10 - 1) + 1) / 12, (2026 * 12 + (10 - 1) + 1) % 12 + 1, 1⟩ - 1) :=
  ⟨by decide,
    heatmap_window_amended 2026 10 12 (by decide) (by decide) (by decide) (by decide) (by decide)⟩

/-! ### Grouped queries and the heatmap accumulator (machinery for C6, C7, C10) -/

lemma sortedDistinctDates_nodup (l : List Nat) : (sortedDistinctDates l).Nodup :=
  List.nodup_dedup _

lemma mem_sortedDistinctDates {l : List Nat} {x : Nat} :
    x ∈ sortedDistinctDates l ↔ x ∈ l := by
  unfold sortedDistinctDates
  rw [List.mem_dedup]
  exact (List.perm_insertionSort _ l).mem_iff

lemma filter_eq_single_of_nodup {l : List Nat} (h : l.Nodup) (x : Nat) :
    l.filter (fun d => decide (d = x)) = if x ∈ l then [x] else [] := by
  induction l with
  | nil => simp
  | cons a as ih =>
    obtain ⟨ha, has⟩ := List.nodup_cons.mp h
    by_cases hax : a = x
    · subst hax
      rw [List.filter_cons, if_pos (by simp), ih has, if_neg ha,
        if_pos (List.mem_cons_self a as)]
    · rw [List.filter_cons, if_neg (by simp [hax]), ih has]
      by_cases hx : x ∈ as
      · rw [if_pos hx, if_pos (List.mem_cons_of_mem a hx)]
      · rw [if_neg hx, if_neg (fun hc => by
          rcases List.mem_cons.mp hc with h1 | h1
          · exact hax h1.symm
          · exact hx h1)]

lemma filter_key_map {β : Type} (l : List Nat) (f : Nat → β) (x : Nat) :
    ((l.map (fun d => (d, f d))).filter (fun p => decide (p.1 = x))) =
      (l.filter (fun d => decide (d = x))).map (fun d => (d, f d)) := by
  rw [List.filter_map]
  rfl

lemma groupCounts_filter (dates : List Nat) (x : Nat) :
    (groupCounts dates).filter (fun p => decide (p.1 = x)) =
      if 0 < dates.count x then [(x, dates.count x)] else [] := by
  unfold groupCounts
  rw [filter_key_map, filter_eq_single_of_nodup (sortedDistinctDates_nodup dates)]
  by_cases hx : x ∈ dates
  · rw [if_pos (mem_sortedDistinctDates.mpr hx), if_pos (List.count_pos_iff.mpr hx)]
    rfl
  · rw [if_neg (fun hc => hx (mem_sortedDistinctDates.mp hc)),
      if_neg (by simp [List.count_eq_zero.mpr hx])]
    rfl

lemma keyTotal_nil (x : Nat) : keyTotal [] x = 0 := rfl

lemma keyTotal_cons (q : Nat × Nat) (l : List (Nat × Nat)) (x : Nat) :
    keyTotal (q :: l) x = (if q.1 = x then q.2 else 0) + keyTotal l x := by
  unfold keyTotal
  rw [List.filter_cons]
  by_cases h : q.1 = x
  · simp [h]
  · simp [h]

lemma keyTotal_groupCounts (dates : List Nat) (x : Nat) :
    keyTotal (groupCounts dates) x = dates.count x := by
  unfold keyTotal
  rw [groupCounts_filter]
  by_cases h : 0 < dates.count x
  · rw [if_pos h]; simp
  · rw [if_neg h]; simp; omega

lemma bump_keyTotal (acc : List (Nat × Nat)) (k c x : Nat) :
    keyTotal (bump acc k c) x = keyTotal acc x + (if k = x then c else 0) := by
  induction acc with
  | nil =>
    by_cases h : k = x <;> simp [bump, keyTotal_cons, keyTotal_nil, h]
  | cons q rest ih =>
    obtain ⟨k', c'⟩ := q
    by_cases hk : k' = k
    · subst hk
      by_cases hx : k' = x <;> (simp [bump, keyTotal_cons, hx]; all_goals omega)
    · rw [show bump ((k', c') :: rest) k c = (k', c') :: bump rest k c from by
        simp [bump, hk]]
      rw [keyTotal_cons, keyTotal_cons, ih]
      omega

lemma bump_keys (acc : List (Nat × Nat)) (k c : Nat) :
    (bump acc k c).map Prod.fst =
      if k ∈ acc.map Prod.fst then acc.map Prod.fst else acc.map Prod.fst ++ [k] := by
  induction acc with
  | nil => simp [bump]
  | cons q rest ih =>
    obtain ⟨k', c'⟩ := q
    by_cases hk : k' = k
    · subst hk
      simp [bump]
    · rw [show bump ((k', c') :: rest) k c = (k', c') :: bump rest k c from by
        simp [bump, hk]]
      by_cases hm : k ∈ rest.map Prod.fst
      · have hmem : k ∈ ((k', c') :: rest).map Prod.fst := by
          rw [List.map_cons]; exact List.mem_cons_of_mem _ hm
        rw [List.map_cons, ih, if_pos hm, if_pos hmem]
        simp
      · have hmem : k ∉ ((k', c') :: rest).map Prod.fst := by
          rw [List.map_cons, List.mem_cons]
          push_neg
          exact ⟨fun h => hk h.symm, hm⟩
        rw [List.map_cons, ih, if_neg hm, if_neg hmem]
        simp

lemma bump_nodup (acc : List (Nat × Nat)) (k c : Nat)
    (h : (acc.map Prod.fst).Nodup) : ((bump acc k c).map Prod.fst).Nodup := by
  rw [bump_keys]
  by_cases hm : k ∈ acc.map Prod.fst
  · rwa [if_pos hm]
  · rw [if_neg hm]
    simp [List.nodup_append, h, hm]

lemma bump_pos (acc : List (Nat × Nat)) (k c : Nat)
    (h : ∀ p ∈ acc, 0 < p.2) (hc : 0 < c) : ∀ p ∈ bump acc k c, 0 < p.2 := by
  induction acc with
  | nil =>
    intro p hp
    rw [show bump [] k c = [(k, c)] from rfl] at hp
    rcases List.mem_singleton.mp hp with rfl
    exact hc
  | cons q rest ih =>
    obtain ⟨k', c'⟩ := q
    intro p hp
    by_cases hk : k' = k
    · rw [show bump ((k', c') :: rest) k c = (k', c' + c) :: rest from by simp [bump, hk]] at hp
      rcases List.mem_cons.mp hp with rfl | hp
      · have := h (k', c') (List.mem_cons_self _ _)
        simp only at this ⊢
        omega
      · exact h p (List.mem_cons_of_mem _ hp)
    · rw [show bump ((k', c') :: rest) k c = (k', c') :: bump rest k c from by
        simp [bump, hk]] at hp
      rcases List.mem_cons.mp hp with rfl | hp
      · exact h (k', c') (List.mem_cons_self _ _)
      · exact ih (fun r hr => h r (List.mem_cons_of_mem _ hr)) p hp

lemma bumpAll_keyTotal (g : List (Nat × Nat)) (acc : List (Nat × Nat)) (x : Nat) :
    keyTotal (bumpAll acc g) x = keyTotal acc x + keyTotal g x := by
  induction g generalizing acc with
  | nil => simp [bumpAll, keyTotal_nil]
  | cons q g' ih =>
    rw [show bumpAll acc (q :: g') = bumpAll (bump acc q.1 q.2) g' from rfl, ih,
      bump_keyTotal, keyTotal_cons]
    omega

lemma bumpAll_nodup (g : List (Nat × Nat)) (acc : List (Nat × Nat))
    (h : (acc.map Prod.fst).Nodup) : ((bumpAll acc g).map Prod.fst).Nodup := by
  induction g generalizing acc with
  | nil => exact h
  | cons q g' ih => exact ih _ (bump_nodup acc q.1 q.2 h)

lemma bumpAll_pos (g : List (Nat × Nat)) (acc : List (Nat × Nat))
    (hacc : ∀ p ∈ acc, 0 < p.2) (hg : ∀ p ∈ g, 0 < p.2) :
    ∀ p ∈ bumpAll acc g, 0 < p.2 := by
  induction g generalizing acc with
  | nil => exact hacc
  | cons q g' ih =>
    exact ih _ (bump_pos acc q.1 q.2 hacc (hg q (List.mem_cons_self _ _)))
      (fun r hr => hg r (List.mem_cons_of_mem _ hr))

lemma assoc_filter_of_nodup_pos (l : List (Nat × Nat))
    (hnd : (l.map Prod.fst).Nodup) (hpos : ∀ p ∈ l, 0 < p.2) (x : Nat) :
    l.filter (fun p => decide (p.1 = x)) =
      if 0 < keyTotal l x then [(x, keyTotal l x)] else [] := by
  induction l with
  | nil => simp [keyTotal_nil]
  | cons q rest ih =>
    have hq : q.1 ∉ rest.map Prod.fst := (List.nodup_cons.mp (by simpa using hnd)).1
    have hrest := ih (List.nodup_cons.mp (by simpa using hnd)).2
      (fun p hp => hpos p (List.mem_cons_of_mem _ hp))
    by_cases hx : q.1 = x
    · subst hx
      have hzero : keyTotal rest q.1 = 0 := by
        unfold keyTotal
        rw [List.filter_eq_nil_iff.mpr (fun p hp => by
          simp only [decide_eq_true_eq]
          exact fun he => hq (he ▸ List.mem_map_of_mem Prod.fst hp))]
        rfl
      have hqpos := hpos q (List.mem_cons_self _ _)
      rw [List.filter_cons, if_pos (by simp), keyTotal_cons, if_pos rfl, hzero,
        hrest, hzero, if_neg (by omega), if_pos (by omega)]
      simp
    · rw [List.filter_cons, if_neg (by simp [hx]), keyTotal_cons, if_neg hx, hrest]
      simp

lemma count_dates_filter {α : Type} (l : List α) (f : α → Nat) (q : α → Bool) (x : Nat) :
    ((l.filter q).map f).count x = l.countP (fun a => q a && decide (f a = x)) := by
  rw [List.count_eq_countP, List.countP_map, List.countP_filter]
  apply List.countP_congr
  intro a _
  by_cases h1 : q a <;> by_cases h2 : f a = x <;> simp [h1, h2, Function.comp]

lemma countOn_eq {α : Type} (l : List α) (fu fd : α → Nat) (u s e x : Nat)
    (hs : s ≤ x) (he : x ≤ e) :
    (((l.filter (fun a => decide (fu a = u))).filter
        (fun a => decide (s ≤ fd a ∧ fd a ≤ e))).map fd).count x =
      l.countP (fun a => decide (fu a = u ∧ fd a = x)) := by
  rw [count_dates_filter, List.countP_filter]
  apply List.countP_congr
  intro a _
  by_cases h1 : fu a = u <;> by_cases h2 : fd a = x <;> simp [h1, h2, hs, he]

lemma groupCounts_pos (dates : List Nat) : ∀ p ∈ groupCounts dates, 0 < p.2 := by
  intro p hp
  unfold groupCounts at hp
  obtain ⟨d, hd, rfl⟩ := List.mem_map.mp hp
  exact List.count_pos_iff.mpr (mem_sortedDistinctDates.mp hd)

/-- C6: for every date inside the heatmap window, the heatmap carries exactly
one pair for that date, whose count is the sum of the user's dietary, exercise
and weight row counts on that date, when that sum is positive; dates with zero
activity are omitted entirely. -/
theorem heatmap_additive_sparse (db : Database) (u today x : Nat)
    (hs : heatmapStart today ≤ x) (he : x ≤ heatmapEnd today) :
    (heatmapData db u today).filter (fun p => decide (p.1 = x)) =
      if 0 < dietaryCountOn db u x + exerciseCountOn db u x + weightCountOn db u x
      then [(x, dietaryCountOn db u x + exerciseCountOn db u x + weightCountOn db u x)]
      else [] := by
  have hnd : ((heatmapData db u today).map Prod.fst).Nodup := by
    unfold heatmapData
    exact bumpAll_nodup _ _ (bumpAll_nodup _ _ (bumpAll_nodup _ _ (by simp)))
  have hpos : ∀ p ∈ heatmapData db u today, 0 < p.2 := by
    unfold heatmapData
    exact bumpAll_pos _ _
      (bumpAll_pos _ _ (bumpAll_pos _ _ (by simp) (groupCounts_pos _)) (groupCounts_pos _))
      (groupCounts_pos _)
  have htot : keyTotal (heatmapData db u today) x =
      dietaryCountOn db u x + exerciseCountOn db u x + weightCountOn db u x := by
    unfold heatmapData userDietary userExercise userWeight
    rw [bumpAll_keyTotal, bumpAll_keyTotal, bumpAll_keyTotal, keyTotal_nil,
      keyTotal_groupCounts, keyTotal_groupCounts, keyTotal_groupCounts,
      countOn_eq db.dietary (fun en => en.user) (fun en => en.date) u _ _ x hs he,
      countOn_eq db.exercise (fun en => en.user) (fun en => en.date) u _ _ x hs he,
      countOn_eq db.weight (fun en => en.user) (fun en => en.date) u _ _ x hs he]
    unfold dietaryCountOn exerciseCountOn weightCountOn
    omega
  rw [assoc_filter_of_nodup_pos _ hnd hpos, htot]

/-- Witness for C6: a user with 2 dietary, 1 exercise and 1 weight row on
2026-10-05 (inside the window of today = 2026-10-12) gets a single heatmap
pair with count 4. -/
theorem heatmap_additive_sparse_witness :
    (heatmapStart (daysFromCivil ⟨2026, 10, 12⟩) ≤ daysFromCivil ⟨2026, 10, 5⟩ ∧
      daysFromCivil ⟨2026, 10, 5⟩ ≤ heatmapEnd (daysFromCivil ⟨2026, 10, 12⟩)) ∧
    (heatmapData
        ⟨[⟨7, daysFromCivil ⟨2026, 10, 5⟩, "", 300⟩, ⟨7, daysFromCivil ⟨2026, 10, 5⟩, "", 400⟩],
         [⟨7, daysFromCivil ⟨2026, 10, 5⟩, "", 30⟩],
         [⟨7, daysFromCivil ⟨2026, 10, 5⟩, 55⟩]⟩ 7
        (daysFromCivil ⟨2026, 10, 12⟩)).filter
        (fun p => decide (p.1 = daysFromCivil ⟨2026, 10, 5⟩)) =
      if 0 < dietaryCountOn
          ⟨[⟨7, daysFromCivil ⟨2026, 10, 5⟩, "", 300⟩, ⟨7, daysFromCivil ⟨2026, 10, 5⟩, "", 400⟩],
           [⟨7, daysFromCivil ⟨2026, 10, 5⟩, "", 30⟩],
           [⟨7, daysFromCivil ⟨2026, 10, 5⟩, 55⟩]⟩ 7 (daysFromCivil ⟨2026, 10, 5⟩) +
        exerciseCountOn
          ⟨[⟨7, daysFromCivil ⟨2026, 10, 5⟩, "", 300⟩, ⟨7, daysFromCivil ⟨2026, 10, 5⟩, "", 400⟩],
           [⟨7, daysFromCivil ⟨2026, 10, 5⟩, "", 30⟩],
           [⟨7, daysFromCivil ⟨2026, 10, 5⟩, 55⟩]⟩ 7 (daysFromCivil ⟨2026, 10, 5⟩) +
        weightCountOn
          ⟨[⟨7, daysFromCivil ⟨2026, 10, 5⟩, "", 300⟩, ⟨7, daysFromCivil ⟨2026, 10, 5⟩, "", 400⟩],
           [⟨7, daysFromCivil ⟨2026, 10, 5⟩, "", 30⟩],
           [⟨7, daysFromCivil ⟨2026, 10, 5⟩, 55⟩]⟩ 7 (daysFromCivil ⟨2026, 10, 5⟩)
      then [(daysFromCivil ⟨2026, 10, 5⟩,
        dietaryCountOn
          ⟨[⟨7, daysFromCivil ⟨2026, 10, 5⟩, "", 300⟩, ⟨7, daysFromCivil ⟨2026, 10, 5⟩, "", 400⟩],
           [⟨7, daysFromCivil ⟨2026, 10, 5⟩, "", 30⟩],
           [⟨7, daysFromCivil ⟨2026, 10, 5⟩, 55⟩]⟩ 7 (daysFromCivil ⟨2026, 10, 5⟩) +
        exerciseCountOn
          ⟨[⟨7, daysFromCivil ⟨2026, 10, 5⟩, "", 300⟩, ⟨7, daysFromCivil ⟨2026, 10, 5⟩, "", 400⟩],
           [⟨7, daysFromCivil ⟨2026, 10, 5⟩, "", 30⟩],
           [⟨7, daysFromCivil ⟨2026, 10, 5⟩, 55⟩]⟩ 7 (daysFromCivil ⟨2026, 10, 5⟩) +
        weightCountOn
          ⟨[⟨7, daysFromCivil ⟨2026, 10, 5⟩, "", 300⟩, ⟨7, daysFromCivil ⟨2026, 10, 5⟩, "", 400⟩],
           [⟨7, daysFromCivil ⟨2026, 10, 5⟩, "", 30⟩],
           [⟨7, daysFromCivil ⟨2026, 10, 5⟩, 55⟩]⟩ 7 (daysFromCivil ⟨2026, 10, 5⟩))]
      else [] :=
  ⟨by decide,
    heatmap_additive_sparse
      ⟨[⟨7, daysFromCivil ⟨2026, 10, 5⟩, "", 300⟩, ⟨7, daysFromCivil ⟨2026, 10, 5⟩, "", 400⟩],
       [⟨7, daysFromCivil ⟨2026, 10, 5⟩, "", 30⟩],
       [⟨7, daysFromCivil ⟨2026, 10, 5⟩, 55⟩]⟩ 7 (daysFromCivil ⟨2026, 10, 12⟩)
      (daysFromCivil ⟨2026, 10, 5⟩) (by decide) (by decide)⟩

lemma filter_key_map_pair {α β : Type} (l : List α) (f : α → Nat) (g : α → β) (x : Nat) :
    ((l.map (fun a => (f a, g a))).filter (fun p => decide (p.1 = x))) =
      (l.filter (fun a => decide (f a = x))).map (fun a => (f a, g a)) := by
  rw [List.filter_map]
  rfl

lemma groupSums_filter (pairs : List (Nat × Int)) (x : Nat) :
    (groupSums pairs).filter (fun p => decide (p.1 = x)) =
      if x ∈ pairs.map Prod.fst
      then [(x, ((pairs.filter (fun p => decide (p.1 = x))).map Prod.snd).sum)]
      else [] := by
  unfold groupSums
  rw [filter_key_map, filter_eq_single_of_nodup (sortedDistinctDates_nodup _)]
  by_cases hx : x ∈ pairs.map Prod.fst
  · rw [if_pos (mem_sortedDistinctDates.mpr hx), if_pos hx]
    rfl
  · rw [if_neg (fun hc => hx (mem_sortedDistinctDates.mp hc)), if_neg hx]
    rfl

lemma filter_user_range_date {α : Type} (l : List α) (fu fd : α → Nat) (u s e x : Nat)
    (hs : s ≤ x) (he : x ≤ e) :
    ((l.filter (fun a => decide (fu a = u))).filter
        (fun a => decide (s ≤ fd a ∧ fd a ≤ e))).filter (fun a => decide (fd a = x)) =
      l.filter (fun a => decide (fu a = u ∧ fd a = x)) := by
  rw [List.filter_filter, List.filter_filter]
  apply List.filter_congr
  intro a _
  by_cases h1 : fu a = u <;> by_cases h2 : fd a = x <;> simp [h1, h2, hs, he]

/-- C7: for every date in the chart window, `caloriesPerDay` carries exactly
one pair for that date — with value the sum of calories over all of the user's
dietary entries dated that date — when the user has at least one dietary entry
there, and no pair at all otherwise. -/
theorem cal_series_daily_sums (db : Database) (u s e x : Nat) (hs : s ≤ x) (he : x ≤ e) :
    (calSeries db u s e).filter (fun p => decide (p.1 = x)) =
      if 0 < dietaryCountOn db u x then [(x, caloriesOn db u x)] else [] := by
  unfold calSeries userDietary
  rw [groupSums_filter]
  have hmemiff : (x ∈ (((db.dietary.filter (fun en => decide (en.user = u))).filter
      (fun en => decide (s ≤ en.date ∧ en.date ≤ e))).map
        (fun en => (en.date, en.calories))).map Prod.fst) ↔
      0 < dietaryCountOn db u x := by
    unfold dietaryCountOn
    rw [List.countP_pos_iff, List.map_map]
    constructor
    · intro hmem
      obtain ⟨en, hen, henx⟩ := List.mem_map.mp hmem
      obtain ⟨hen1, hen2⟩ := List.mem_filter.mp hen
      obtain ⟨hen0, hen3⟩ := List.mem_filter.mp hen1
      refine ⟨en, hen0, ?_⟩
      simp only [decide_eq_true_eq] at hen3 ⊢
      exact ⟨hen3, henx⟩
    · intro ⟨en, hen, hp⟩
      simp only [decide_eq_true_eq] at hp
      refine List.mem_map.mpr ⟨en, ?_, hp.2⟩
      refine List.mem_filter.mpr ⟨List.mem_filter.mpr ⟨hen, by simp [hp.1]⟩, ?_⟩
      simp only [decide_eq_true_eq]
      omega
  have hsum : ((((db.dietary.filter (fun en => decide (en.user = u))).filter
      (fun en => decide (s ≤ en.date ∧ en.date ≤ e))).map
        (fun en => (en.date, en.calories))).filter
          (fun p => decide (p.1 = x))).map Prod.snd =
      (db.dietary.filter (fun en => decide (en.user = u ∧ en.date = x))).map
        (fun en => en.calories) := by
    rw [filter_key_map_pair, filter_user_range_date db.dietary
      (fun en => en.user) (fun en => en.date) u s e x hs he, List.map_map]
    rfl
  by_cases hpos : 0 < dietaryCountOn db u x
  · rw [if_pos (hmemiff.mpr hpos), if_pos hpos, hsum]
    rfl
  · rw [if_neg (fun hc => hpos (hmemiff.mp hc)), if_neg hpos]

/-- Witness for C7, the spec's round-trip scenario: user A has three dietary
entries dated today (2026-10-12) with calories 300, 500, 700; the series over
a window covering today has the single pair (today, 1500) at today. -/
theorem cal_series_daily_sums_witness :
    (daysFromCivil ⟨2026, 10, 6⟩ ≤ daysFromCivil ⟨2026, 10, 12⟩ ∧
      daysFromCivil ⟨2026, 10, 12⟩ ≤ daysFromCivil ⟨2026, 10, 12⟩) ∧
    (calSeries
        ⟨[⟨1, daysFromCivil ⟨2026, 10, 12⟩, "", 300⟩, ⟨1, daysFromCivil ⟨2026, 10, 12⟩, "", 500⟩,
          ⟨1, daysFromCivil ⟨2026, 10, 12⟩, "", 700⟩], [], []⟩ 1
        (daysFromCivil ⟨2026, 10, 6⟩) (daysFromCivil ⟨2026, 10, 12⟩)).filter
        (fun p => decide (p.1 = daysFromCivil ⟨2026, 10, 12⟩)) =
      [(daysFromCivil ⟨2026, 10, 12⟩, 1500)] :=
  ⟨by decide, by
    have h := cal_series_daily_sums
      ⟨[⟨1, daysFromCivil ⟨2026, 10, 12⟩, "", 300⟩, ⟨1, daysFromCivil ⟨2026, 10, 12⟩, "", 500⟩,
        ⟨1, daysFromCivil ⟨2026, 10, 12⟩, "", 700⟩], [], []⟩ 1
      (daysFromCivil ⟨2026, 10, 6⟩) (daysFromCivil ⟨2026, 10, 12⟩)
      (daysFromCivil ⟨2026, 10, 12⟩) (by decide) (by decide)
    rw [h]
    decide⟩

/-! ### Latest weight (C8), empty user (C9), heatmap ordering (C10) -/

instance : IsTotal WeightEntry (fun a b => b.date ≤ a.date) :=
  ⟨fun a b => Nat.le_total b.date a.date⟩

instance : IsTrans WeightEntry (fun a b => b.date ≤ a.date) :=
  ⟨fun _ _ _ h1 h2 => Nat.le_trans h2 h1⟩

/-- C8: `latest_weight_value` is `none` exactly for users with no weight
entries; otherwise it is the weight of an entry whose date is maximal among
all of the user's weight entries — independent of any chart window, which is
not even an input of the computation. -/
theorem latest_weight_spec (db : Database) (u : Nat) :
    (userWeight db u = [] → latest_weight_value db u = none) ∧
    (userWeight db u ≠ [] →
      ∃ en, en ∈ userWeight db u ∧ latest_weight_value db u = some en.weight_kg ∧
        ∀ w ∈ userWeight db u, w.date ≤ en.date) := by
  constructor
  · intro h
    unfold latest_weight_value
    rw [h]
    rfl
  · intro h
    unfold latest_weight_value
    obtain ⟨en, rest, heq⟩ : ∃ en rest,
        List.insertionSort (fun a b => b.date ≤ a.date) (userWeight db u) = en :: rest := by
      cases hs : List.insertionSort (fun a b => b.date ≤ a.date) (userWeight db u) with
      | nil =>
        have hperm := List.perm_insertionSort (fun a b => b.date ≤ a.date) (userWeight db u)
        rw [hs] at hperm
        exact absurd hperm.symm.eq_nil h
      | cons a rest => exact ⟨a, rest, rfl⟩
    rw [heq]
    refine ⟨en, ?_, rfl, ?_⟩
    · exact (List.perm_insertionSort _ _).mem_iff.mp (heq ▸ List.mem_cons_self en rest)
    · intro w hw
      have hw' : w ∈ en :: rest :=
        heq ▸ ((List.perm_insertionSort (fun a b => b.date ≤ a.date)
          (userWeight db u)).mem_iff.mpr hw)
      rcases List.mem_cons.mp hw' with rfl | hw''
      · exact Nat.le_refl _
      · have hsorted := List.sorted_insertionSort (fun a b => b.date ≤ a.date) (userWeight db u)
        rw [heq] at hsorted
        exact (List.sorted_cons.mp hsorted).1 w hw''

/-- A user whose only weight entry is 55 kg dated 2026-10-11 (yesterday
relative to 2026-10-12). -/
def weightFixtureDb : Database := ⟨[], [], [⟨4, daysFromCivil ⟨2026, 10, 11⟩, 55⟩]⟩

/-- Witness for C8: the user with a single 55 kg entry dated yesterday still
gets `latestWeight = 55` (the chart window is not an input at all). -/
theorem latest_weight_spec_witness :
    userWeight weightFixtureDb 4 ≠ [] ∧
    ∃ en, en ∈ userWeight weightFixtureDb 4 ∧
      latest_weight_value weightFixtureDb 4 = some en.weight_kg ∧
      ∀ w ∈ userWeight weightFixtureDb 4, w.date ≤ en.date :=
  ⟨by decide, (latest_weight_spec weightFixtureDb 4).2 (by decide)⟩

/-- C9: a user owning no dietary, exercise or weight rows gets three empty
chart series, an empty heatmap list and a null latest weight, for any chart
window and any today — no failure path exists. -/
theorem dashboard_empty_user (db : Database) (u s e today : Nat)
    (hd : userDietary db u = []) (hx : userExercise db u = []) (hw : userWeight db u = []) :
    calSeries db u s e = [] ∧ exSeries db u s e = [] ∧ wtSeries db u s e = [] ∧
    heatmapData db u today = [] ∧ latest_weight_value db u = none := by
  refine ⟨?_, ?_, ?_, ?_, ?_⟩
  · unfold calSeries
    rw [hd]
    rfl
  · unfold exSeries
    rw [hx]
    rfl
  · unfold wtSeries
    rw [hw]
    rfl
  · unfold heatmapData
    rw [hd, hx, hw]
    rfl
  · unfold latest_weight_value
    rw [hw]
    rfl

/-- Witness for C9: the empty database at an arbitrary user, window and today. -/
theorem dashboard_empty_user_witness :
    (userDietary ⟨[], [], []⟩ 9 = [] ∧ userExercise ⟨[], [], []⟩ 9 = [] ∧
      userWeight ⟨[], [], []⟩ 9 = []) ∧
    (calSeries ⟨[], [], []⟩ 9 100 200 = [] ∧ exSeries ⟨[], [], []⟩ 9 100 200 = [] ∧
      wtSeries ⟨[], [], []⟩ 9 100 200 = [] ∧ heatmapData ⟨[], [], []⟩ 9 20738 = [] ∧
      latest_weight_value ⟨[], [], []⟩ 9 = none) :=
  ⟨⟨rfl, rfl, rfl⟩,
    dashboard_empty_user ⟨[], [], []⟩ 9 100 200 20738 rfl rfl rfl⟩

lemma groupCounts_keys (dates : List Nat) :
    (groupCounts dates).map Prod.fst = sortedDistinctDates dates := by
  unfold groupCounts
  rw [List.map_map]
  exact List.map_id _

lemma sortedDistinctDates_sorted (l : List Nat) :
    List.Sorted (· ≤ ·) (sortedDistinctDates l) :=
  List.Pairwise.sublist (List.dedup_sublist _) (List.sorted_insertionSort _ l)

lemma bumpAll_keys (g : List (Nat × Nat)) (acc : List (Nat × Nat))
    (hg : (g.map Prod.fst).Nodup) :
    (bumpAll acc g).map Prod.fst =
      acc.map Prod.fst ++
        (g.map Prod.fst).filter (fun z => decide (z ∉ acc.map Prod.fst)) := by
  induction g generalizing acc with
  | nil => simp [bumpAll]
  | cons q g' ih =>
    have hq : q.1 ∉ g'.map Prod.fst := (List.nodup_cons.mp (by simpa using hg)).1
    have hg' : (g'.map Prod.fst).Nodup := (List.nodup_cons.mp (by simpa using hg)).2
    rw [show bumpAll acc (q :: g') = bumpAll (bump acc q.1 q.2) g' from rfl, ih _ hg',
      bump_keys]
    by_cases hm : q.1 ∈ acc.map Prod.fst
    · rw [if_pos hm, List.map_cons, List.filter_cons, if_neg (by simp [hm])]
    · have hcong : (g'.map Prod.fst).filter
          (fun z => decide (z ∉ acc.map Prod.fst ++ [q.1])) =
          (g'.map Prod.fst).filter (fun z => decide (z ∉ acc.map Prod.fst)) :=
        List.filter_congr (fun z hz => by
          have hzq : z ≠ q.1 := fun hzq => hq (hzq ▸ hz)
          simp [List.mem_append, hzq])
      rw [if_neg hm, hcong, List.map_cons, List.filter_cons, if_pos (by simp [hm])]
      simp

/-- C10: the heatmap key list is assembled as the ascending distinct dietary
dates, then the exercise dates not already present, then the weight dates not
already present (each block itself ascending); consequently the list is not
date-sorted in general — witnessed by a user whose exercise-only date precedes
their dietary date, for whom the emitted pairs are out of ascending order. -/
theorem heatmap_assembly_order (db : Database) (u today : Nat) :
    ((heatmapData db u today).map Prod.fst =
      sortedDistinctDates (heatmapDietaryDates db u today) ++
      (sortedDistinctDates (heatmapExerciseDates db u today)).filter
        (fun z => decide (z ∉ sortedDistinctDates (heatmapDietaryDates db u today))) ++
      (sortedDistinctDates (heatmapWeightDates db u today)).filter
        (fun z => decide (z ∉
          sortedDistinctDates (heatmapDietaryDates db u today) ++
          (sortedDistinctDates (heatmapExerciseDates db u today)).filter
            (fun z => decide (z ∉ sortedDistinctDates (heatmapDietaryDates db u today)))))) ∧
    List.Sorted (· ≤ ·) (sortedDistinctDates (heatmapDietaryDates db u today)) ∧
    List.Sorted (· ≤ ·) ((sortedDistinctDates (heatmapExerciseDates db u today)).filter
      (fun z => decide (z ∉ sortedDistinctDates (heatmapDietaryDates db u today)))) ∧
    ((heatmapData exOrderDb 1 (daysFromCivil ⟨2026, 10, 12⟩)).map Prod.fst =
        [daysFromCivil ⟨2026, 10, 10⟩, daysFromCivil ⟨2026, 10, 3⟩] ∧
      ¬ List.Sorted (· ≤ ·)
        ((heatmapData exOrderDb 1 (daysFromCivil ⟨2026, 10, 12⟩)).map Prod.fst)) := by
  refine ⟨?_, sortedDistinctDates_sorted _,
    List.Pairwise.sublist (List.filter_sublist _) (sortedDistinctDates_sorted _), ?_, ?_⟩
  · unfold heatmapData heatmapDietaryDates heatmapExerciseDates heatmapWeightDates
    rw [bumpAll_keys _ _ (by rw [groupCounts_keys]; exact sortedDistinctDates_nodup _),
      bumpAll_keys _ _ (by rw [groupCounts_keys]; exact sortedDistinctDates_nodup _),
      bumpAll_keys _ _ (by rw [groupCounts_keys]; exact sortedDistinctDates_nodup _),
      groupCounts_keys, groupCounts_keys, groupCounts_keys]
    simp
  · decide
  · have hkeys : (heatmapData exOrderDb 1 (daysFromCivil ⟨2026, 10, 12⟩)).map Prod.fst =
        [daysFromCivil ⟨2026, 10, 10⟩, daysFromCivil ⟨2026, 10, 3⟩] := by decide
    rw [hkeys]
    intro hsorted
    have := (List.sorted_cons.mp hsorted).1 (daysFromCivil ⟨2026, 10, 3⟩)
      (List.mem_singleton.mpr rfl)
    revert this
    decide

end Avicenna
